import Mathlib

/-!
Verification development for the FBS payment-plan analysis system.

The Python source is shallowly embedded: monetary floats become `ℚ`,
`datetime` values become calendar dates (`Date`) plus absolute day numbers
(`ℤ`), fallible operations return `Option`/`Except`, and the mutable
analysis pipeline becomes explicit state passing.  Wall-clock reads
(`datetime.now()`) are threaded through as an explicit `Now` parameter.
-/

/-- Payment frequency enum (`models.PaymentFrequency`). -/
inductive Frequency
| monthly
| quarterly
| bimonthly
| undefined
deriving DecidableEq

/-- Plan/customer status enum (`models.CustomerStatus`); `unknown` is unused by
the metrics calculator. -/
inductive CustomerStatus
| current
| behind
| completed
| unknown
deriving DecidableEq

/-- Calendar date (year, month 1..12, day); times of day are irrelevant to the
embedded arithmetic, which only steps whole months and compares dates. -/
structure Date where
  year : Nat
  month : Nat
  day : Nat
deriving DecidableEq

/-- Strict lexicographic comparison of dates (models `datetime <`). -/
def dateLtb (a b : Date) : Bool :=
  if a.year ≠ b.year then a.year < b.year
  else if a.month ≠ b.month then a.month < b.month
  else a.day < b.day

/-- The wall clock at analysis time: an absolute day number (for elapsed-day
subtraction, `(datetime.now() - d).days`) and the calendar date (for month
stepping).  Both views of the same instant. -/
structure Now where
  days : Int
  date : Date
deriving DecidableEq

/-- Python `round(x, n)` rounds half to even; this is the integer-valued
rounding at the heart of it. -/
def roundHalfEvenZ (q : ℚ) : ℤ :=
  let f := ⌊q⌋
  let r := q - f
  if r < 1/2 then f
  else if 1/2 < r then f + 1
  else if f % 2 = 0 then f else f + 1

/-- Embeds `round(x, 2)` from the monetary rounding in the source. -/
def round2 (q : ℚ) : ℚ := (roundHalfEvenZ (q * 100) : ℚ) / 100

/-- Embeds `round(x, 1)` (used for `percent_paid`). -/
def round1 (q : ℚ) : ℚ := (roundHalfEvenZ (q * 10) : ℚ) / 10

/-- Embeds `utils.whole_months`: always round months up (`math.ceil`). -/
def whole_months (decimal_months : ℚ) : ℤ := ⌈decimal_months⌉

/-- Embeds `utils.cap_deficit_at_balance`: cap a payment deficit at the balance owed. -/
def cap_deficit_at_balance (deficit : ℚ) (total_balance : ℚ) : ℚ :=
  min |deficit| total_balance

/-- Embeds `utils.get_payment_date_for_month`: step `month_number` whole months
forward from `now` and anchor to `payment_day` (the source always passes 15).
`relativedelta(months=n)` adds to the month with year rollover; the subsequent
`.replace(day=...)` fixes the day, so only year/month of the intermediate
date matter. -/
def get_payment_date_for_month (now : Date) (month_number : Nat) (payment_day : Nat) : Date :=
  let t := (now.month - 1) + month_number
  { year := now.year + t / 12, month := t % 12 + 1, day := payment_day }

/-- Embeds `utils.normalize_frequency_to_months`: payment frequency to month
interval; the dict lookup in the source defaults to 1. -/
def normalize_frequency_to_months (frequency : Frequency) : Nat :=
  match frequency with
  | .monthly => 1
  | .quarterly => 3
  | .bimonthly => 2
  | .undefined => 1

/-- Embeds `utils.calculate_expected_payments_by_frequency`: expected payments given
elapsed whole months.  `months_elapsed` is an `int` in the source
(`whole_months` output) and `//` is Python floor division, i.e. `Int.fdiv`. -/
def calculate_expected_payments_by_frequency (monthly_amount : ℚ) (months_elapsed : ℤ) (frequency : Frequency) : ℚ :=
  match frequency with
  | .monthly => months_elapsed * monthly_amount
  | .quarterly => (months_elapsed.fdiv 3) * monthly_amount
  | .bimonthly => (months_elapsed.fdiv 2) * monthly_amount
  | .undefined => months_elapsed * monthly_amount

/-- Embeds `utils.calculate_completion_timeline`: months to completion.  The source
computes `((payments_needed - 1) * frequency_months) + 1`, i.e. the first
payment falls in month 1 and subsequent payments are spaced by the frequency
interval. -/
def calculate_completion_timeline (total_owed : ℚ) (monthly_payment : ℚ) (frequency : Frequency) : ℤ :=
  if monthly_payment ≤ 0 ∨ total_owed ≤ 0 then 0
  else
    let payments_needed : ℤ := ⌈total_owed / monthly_payment⌉
    let frequency_months : ℤ := normalize_frequency_to_months frequency
    (payments_needed - 1) * frequency_months + 1

/-- An invoice (`models.Invoice`): dates are absolute day numbers, already
parsed (`parse_date` yields a datetime or `None`); `raw_data` is omitted. -/
structure Invoice where
  invoice_number : String
  date : Option Int
  payment_terms : Option String
  original_amount : ℚ
  open_balance : ℚ
  class_field : Option String
deriving DecidableEq

/-- Data-quality issue kinds (`models.ErrorType`), restricted to the kinds the
analyzer emits; the issue payload (description strings, severities) is not
consulted by any downstream control flow and is omitted. -/
inductive ErrorType
| no_payment_terms
| future_dated
| asterisk_invoice
| missing_invoice_numbers
| missing_class
| invalid_amount
| nested_customer
| multiple_payment_terms
| formatting_error
deriving DecidableEq

/-- A payment plan (`models.PaymentPlan`). -/
structure PaymentPlan where
  customer_name : String
  plan_id : String
  monthly_amount : ℚ
  frequency : Frequency
  total_original : ℚ
  total_open : ℚ
  invoices : List Invoice
  earliest_date : Option Int
  latest_date : Option Int
  class_filter : Option String
  has_issues : Bool
  issues : List ErrorType
  is_nested : Bool
  parent_customer : Option String
  payment_terms_raw : Option String
deriving DecidableEq

/-- A customer (`models.Customer`). -/
structure Customer where
  customer_name : String
  payment_plans : List PaymentPlan
  total_open_balance : ℚ
  total_original_amount : ℚ
  all_classes : List String
  has_multiple_plans : Bool
  earliest_date : Option Int
  latest_date : Option Int
deriving DecidableEq

/-- One roadmap entry (the dict built by `_generate_payment_roadmap`; the
`description` string is omitted). -/
structure RoadmapEntry where
  payment_number : Nat
  date : Date
  expected_payment : ℚ
  remaining_balance : ℚ
  is_overdue : Bool
deriving DecidableEq

/-- Per-plan computed metrics (`models.PaymentMetrics`). -/
structure PaymentMetrics where
  customer_name : String
  plan_id : String
  monthly_payment : ℚ
  frequency : Frequency
  total_owed : ℚ
  original_amount : ℚ
  percent_paid : ℚ
  months_elapsed : ℤ
  expected_payments : ℚ
  actual_payments : ℚ
  payment_difference : ℚ
  months_behind : ℤ
  status : CustomerStatus
  projected_completion : Option Date
  months_remaining : ℤ
  class_field : Option String
  payment_roadmap : List RoadmapEntry
deriving DecidableEq

/-- Embeds `EnhancedPaymentCalculator._calculate_months_behind`: whole months behind
from the (signed) payment difference. -/
def calculate_months_behind (plan : PaymentPlan) (payment_difference : ℚ) : ℤ :=
  if 0 ≤ payment_difference then 0
  else
    let deficit := cap_deficit_at_balance payment_difference plan.total_open
    if plan.monthly_amount ≤ 0 then 0
    else
      let months_behind_decimal := deficit / plan.monthly_amount
      let months_behind_decimal :=
        match plan.frequency with
        | .quarterly => months_behind_decimal * 3
        | .bimonthly => months_behind_decimal * 2
        | _ => months_behind_decimal
      whole_months months_behind_decimal

/-- Embeds `EnhancedPaymentCalculator._calculate_completion`: months remaining plus
the projected completion date (`None` when nothing remains).  The calculator
always uses payment day 15. -/
def calculate_completion (now : Now) (plan : PaymentPlan) : ℤ × Option Date :=
  let months_remaining :=
    calculate_completion_timeline plan.total_open plan.monthly_amount plan.frequency
  if 0 < months_remaining then
    (months_remaining, some (get_payment_date_for_month now.date months_remaining.toNat 15))
  else
    (months_remaining, none)

/-- Loop body of `_generate_payment_roadmap`: `fuel` is the number of
iterations of `range(1, months_remaining + 1, frequency_months)` left,
`month` the current loop variable, `bal` the running balance and `pn` the
payment number.  The loop breaks when the balance is exhausted or the
60-payment cap is passed. -/
def roadmap_loop (now : Now) (monthly_amount : ℚ) (frequency_months : Nat) :
    Nat → Nat → ℚ → Nat → List RoadmapEntry
  | 0, _, _, _ => []
  | fuel + 1, month, bal, pn =>
    if bal ≤ 0 ∨ 60 < pn then []
    else
      let payment_amount := min monthly_amount bal
      let payment_date := get_payment_date_for_month now.date month 15
      { payment_number := pn
        date := payment_date
        expected_payment := round2 payment_amount
        remaining_balance := round2 (bal - payment_amount)
        is_overdue := dateLtb payment_date now.date } ::
      roadmap_loop now monthly_amount frequency_months fuel (month + frequency_months)
        (bal - payment_amount) (pn + 1)

/-- Embeds `EnhancedPaymentCalculator._generate_payment_roadmap`.  The Python
`for month in range(1, months_remaining + 1, frequency_months)` performs
`(months_remaining - 1) / frequency_months + 1` iterations (when
`months_remaining ≥ 1`), which becomes the loop fuel. -/
def generate_payment_roadmap (now : Now) (plan : PaymentPlan) (months_remaining : ℤ) : List RoadmapEntry :=
  if plan.monthly_amount ≤ 0 ∨ months_remaining ≤ 0 then []
  else
    let frequency_months := normalize_frequency_to_months plan.frequency
    let iterations := (months_remaining - 1).toNat / frequency_months + 1
    roadmap_loop now plan.monthly_amount frequency_months iterations 1 plan.total_open 1

/-- Embeds `EnhancedPaymentCalculator.calculate_plan_metrics`: metrics for one plan.
Returns `none` when the plan has issues, has `monthly_amount == 0`, or has no
earliest invoice date (the source test `if plan.earliest_date:` falls through to
`return None`). -/
def calculate_plan_metrics (now : Now) (plan : PaymentPlan) : Option PaymentMetrics :=
  if plan.has_issues ∨ plan.monthly_amount = 0 then none
  else
    match plan.earliest_date with
    | none => none
    | some d =>
      let days_elapsed : ℤ := now.days - d
      let months_elapsed := whole_months ((days_elapsed : ℚ) / (30.44 : ℚ))
      let expected_payments :=
        calculate_expected_payments_by_frequency plan.monthly_amount months_elapsed plan.frequency
      let actual_payments := plan.total_original - plan.total_open
      let payment_difference := actual_payments - expected_payments
      let months_behind := calculate_months_behind plan payment_difference
      let percent_paid :=
        if 0 < plan.total_original then
          (plan.total_original - plan.total_open) / plan.total_original * 100
        else 0
      let status :=
        if plan.total_open = 0 then CustomerStatus.completed
        else if 0 < months_behind then CustomerStatus.behind
        else CustomerStatus.current
      let completion := calculate_completion now plan
      let roadmap := generate_payment_roadmap now plan completion.1
      some
        { customer_name := plan.customer_name
          plan_id := plan.plan_id
          monthly_payment := plan.monthly_amount
          frequency := plan.frequency
          total_owed := plan.total_open
          original_amount := plan.total_original
          percent_paid := round1 percent_paid
          months_elapsed := months_elapsed
          expected_payments := round2 expected_payments
          actual_payments := round2 actual_payments
          payment_difference := round2 payment_difference
          months_behind := months_behind
          status := status
          projected_completion := completion.2
          months_remaining := completion.1
          class_field := plan.class_filter
          payment_roadmap := roadmap }

/-- Embeds `EnhancedPaymentCalculator.calculate_customer_metrics`: metrics for every
plan of a customer that has no issues and a positive monthly amount. -/
def calculate_customer_metrics (now : Now) (customer : Customer) : List PaymentMetrics :=
  customer.payment_plans.filterMap fun plan =>
    if plan.has_issues = false ∧ 0 < plan.monthly_amount then
      calculate_plan_metrics now plan
    else none

/-- Stable insertion of `x` into a sorted list: `x` is placed before the first
element it compares `le` to, so elements equal under the key keep their
original relative order — the stability guarantee of Python `sorted`. -/
def stable_insert {α : Type} (le : α → α → Bool) (x : α) : List α → List α
  | [] => [x]
  | y :: ys => if le x y then x :: y :: ys else y :: stable_insert le x ys

/-- Stable sort by a boolean total preorder (models Python `sorted(key=...)`). -/
def stable_sort {α : Type} (le : α → α → Bool) : List α → List α
  | [] => []
  | x :: xs => stable_insert le x (stable_sort le xs)

/-- Sort key order of `prioritize_collections`:
`(-months_behind, -total_owed, -cap_deficit_at_balance(payment_difference, total_owed))`
compared ascending, i.e. most months behind first. -/
def priority_le (a b : PaymentMetrics) : Bool :=
  if a.months_behind ≠ b.months_behind then b.months_behind < a.months_behind
  else if a.total_owed ≠ b.total_owed then b.total_owed < a.total_owed
  else
    cap_deficit_at_balance b.payment_difference b.total_owed ≤
      cap_deficit_at_balance a.payment_difference a.total_owed

/-- Embeds `EnhancedPaymentCalculator.prioritize_collections`: behind plans sorted by
collection priority. -/
def prioritize_collections (all_metrics : List PaymentMetrics) : List PaymentMetrics :=
  stable_sort priority_le (all_metrics.filter fun m => m.status = CustomerStatus.behind)

/-- Embeds `EnhancedPaymentCalculator._calculate_months_behind_for_plan` (projection
variant of the months-behind computation; `0` when the plan has no earliest
invoice date). -/
def calculate_months_behind_for_plan (now : Now) (plan : PaymentPlan) : ℤ :=
  match plan.earliest_date with
  | none => 0
  | some d =>
    let days_elapsed : ℤ := now.days - d
    let months_elapsed := whole_months ((days_elapsed : ℚ) / (30.44 : ℚ))
    let expected_payments :=
      calculate_expected_payments_by_frequency plan.monthly_amount months_elapsed plan.frequency
    let actual_payments := plan.total_original - plan.total_open
    let payment_deficit := expected_payments - actual_payments
    if payment_deficit ≤ 0 then 0
    else
      let capped_deficit := cap_deficit_at_balance payment_deficit plan.total_open
      if 0 < plan.monthly_amount then
        let months_behind_decimal := capped_deficit / plan.monthly_amount
        let months_behind_decimal :=
          match plan.frequency with
          | .quarterly => months_behind_decimal * 3
          | .bimonthly => months_behind_decimal * 2
          | _ => months_behind_decimal
        whole_months months_behind_decimal
      else 0

/-- Per-plan entry of a projection month (the dict built by
`_calculate_plan_payment_for_month`). -/
structure PlanPaymentInfo where
  plan_id : String
  payment_amount : ℚ
  payment_number : Nat
  total_payments : ℤ
  frequency : Frequency
  class_field : Option String
  is_final_payment : Bool
  remaining_balance : ℚ
deriving DecidableEq

/-- Embeds `EnhancedPaymentCalculator._calculate_plan_payment_for_month`: the
scheduled payment of one plan in projection month `month` (1-based), `none`
outside the payment months of the plan or past its payoff.  The `scenario`
argument is accepted and ignored, exactly as in the source. -/
def calculate_plan_payment_for_month (plan : PaymentPlan) (month : Nat) (scenario : String) : Option PlanPaymentInfo :=
  let _ := scenario
  let frequency_months := normalize_frequency_to_months plan.frequency
  if (month - 1) % frequency_months ≠ 0 then none
  else
    let payment_number := (month - 1) / frequency_months + 1
    let total_payments_needed : ℤ := ⌈plan.total_open / plan.monthly_amount⌉
    if total_payments_needed < (payment_number : ℤ) then none
    else
      let is_final_payment := (payment_number : ℤ) = total_payments_needed
      let payment_amount :=
        if is_final_payment then
          let previous_payments := (payment_number - 1 : ℕ) * plan.monthly_amount
          min plan.monthly_amount (max 0 (plan.total_open - previous_payments))
        else plan.monthly_amount
      let remaining_balance :=
        if is_final_payment then 0
        else max 0 (plan.total_open - (payment_number : ℕ) * plan.monthly_amount)
      some
        { plan_id := plan.plan_id
          payment_amount := round2 payment_amount
          payment_number := payment_number
          total_payments := total_payments_needed
          frequency := plan.frequency
          class_field := plan.class_filter
          is_final_payment := is_final_payment
          remaining_balance := round2 remaining_balance }

/-- One month of a projection timeline (the dict built by the
`_project_*` methods). -/
structure TimelineMonth where
  month : Nat
  date : Date
  monthly_payment : ℚ
  active_plans : Nat
  plan_details : List PlanPaymentInfo
  note : String
deriving DecidableEq

/-- A customer projection (`enhanced_calculators.CustomerProjection`). -/
structure CustomerProjection where
  customer_name : String
  total_monthly_payment : ℚ
  total_owed : ℚ
  completion_month : ℤ
  plan_count : Nat
  timeline : List TimelineMonth
  status : String
  months_behind : ℤ
  renegotiation_needed : Bool
deriving DecidableEq

/-- Shared shape of the `_project_*` month loops: collect the plan payments of
`plans` for a given `month`, keeping entries with a positive amount. -/
def month_plan_details (plans : List PaymentPlan) (month : Nat) (scenario : String) : List PlanPaymentInfo :=
  plans.filterMap fun plan =>
    match calculate_plan_payment_for_month plan month scenario with
    | some payment_info => if 0 < payment_info.payment_amount then some payment_info else none
    | none => none

/-- Embeds `EnhancedPaymentCalculator._project_behind_customer_current`: the
"current" scenario for a customer with arrears.  The month loop in the source
keeps `current_plans = [plan for plan in all_plans if (plan, 0) not in
behind_plans]`; since `behind_plans` pairs always carry a months-behind
value `> 0`, the membership test compares against a pair that cannot occur. -/
def project_behind_customer_current (now : Now) (customer : Customer)
    (all_plans : List PaymentPlan) (behind_plans : List (PaymentPlan × ℤ))
    (months_ahead : Nat) : CustomerProjection :=
  let total_months_behind := (behind_plans.map (·.2)).sum
  let total_monthly := (all_plans.map (·.monthly_amount)).sum
  let total_owed := (all_plans.map (·.total_open)).sum
  let timeline := (List.range months_ahead).map fun i =>
    let month := i + 1
    let current_plans := all_plans.filter fun plan => ¬ behind_plans.contains (plan, (0 : ℤ))
    let plan_details := month_plan_details current_plans month "current"
    { month := month
      date := get_payment_date_for_month now.date month 15
      monthly_payment := round2 ((plan_details.map (·.payment_amount)).sum)
      active_plans := plan_details.length
      plan_details := plan_details
      note := if 0 < total_months_behind then "Behind customer - contact needed" else "" }
  { customer_name := customer.customer_name
    total_monthly_payment := total_monthly
    total_owed := total_owed
    completion_month := 0
    plan_count := all_plans.length
    timeline := timeline
    status := if 0 < total_months_behind then "behind" else "current"
    months_behind := total_months_behind
    renegotiation_needed := 0 < total_months_behind }

/-- Embeds `EnhancedPaymentCalculator._project_customer_restart`: the "restart"
scenario — every plan resumes its schedule from month 1. -/
def project_customer_restart (now : Now) (customer : Customer)
    (all_plans : List PaymentPlan) (months_ahead : Nat) : CustomerProjection :=
  let total_monthly := (all_plans.map (·.monthly_amount)).sum
  let total_owed := (all_plans.map (·.total_open)).sum
  let max_completion_month := all_plans.foldl
    (fun acc plan =>
      max acc (calculate_completion_timeline plan.total_open plan.monthly_amount plan.frequency))
    0
  let completion_month := min max_completion_month (months_ahead : ℤ)
  let timeline := (List.range months_ahead).map fun i =>
    let month := i + 1
    let plan_details := month_plan_details all_plans month "restart"
    { month := month
      date := get_payment_date_for_month now.date month 15
      monthly_payment := round2 ((plan_details.map (·.payment_amount)).sum)
      active_plans := plan_details.length
      plan_details := plan_details
      note := if month = 1 then "Restart scenario" else "" }
  { customer_name := customer.customer_name
    total_monthly_payment := total_monthly
    total_owed := total_owed
    completion_month := completion_month
    plan_count := all_plans.length
    timeline := timeline
    status := "restart"
    months_behind := 0
    renegotiation_needed := false }

/-- Embeds `EnhancedPaymentCalculator._project_current_customer`: normal projection
for a customer with no arrears. -/
def project_current_customer (now : Now) (customer : Customer)
    (valid_plans : List PaymentPlan) (months_ahead : Nat) : CustomerProjection :=
  let total_monthly := (valid_plans.map (·.monthly_amount)).sum
  let total_owed := (valid_plans.map (·.total_open)).sum
  let max_completion_month := valid_plans.foldl
    (fun acc plan =>
      max acc (calculate_completion_timeline plan.total_open plan.monthly_amount plan.frequency))
    0
  let timeline := (List.range months_ahead).map fun i =>
    let month := i + 1
    let plan_details := month_plan_details valid_plans month "current"
    { month := month
      date := get_payment_date_for_month now.date month 15
      monthly_payment := round2 ((plan_details.map (·.payment_amount)).sum)
      active_plans := plan_details.length
      plan_details := plan_details
      note := "" }
  { customer_name := customer.customer_name
    total_monthly_payment := total_monthly
    total_owed := total_owed
    completion_month := min max_completion_month (months_ahead : ℤ)
    plan_count := valid_plans.length
    timeline := timeline
    status := "current"
    months_behind := 0
    renegotiation_needed := false }

/-- The plan-splitting step of the first loop in
`_calculate_single_customer_projection`: a plan with positive monthly amount and open balance goes to the
behind list (with its months-behind) or the valid list; other plans are
skipped. -/
def projection_split_step (now : Now) (acc : List PaymentPlan × List (PaymentPlan × ℤ))
    (plan : PaymentPlan) : List PaymentPlan × List (PaymentPlan × ℤ) :=
  if 0 < plan.monthly_amount ∧ 0 < plan.total_open then
    let months_behind := calculate_months_behind_for_plan now plan
    if 0 < months_behind then (acc.1, acc.2 ++ [(plan, months_behind)])
    else (acc.1 ++ [plan], acc.2)
  else acc

/-- Embeds `EnhancedPaymentCalculator._calculate_single_customer_projection`: split
plans into behind / not-behind, then dispatch on arrears and scenario.  An
unknown scenario string for a behind customer falls through to `None`, as in
the source. -/
def calculate_single_customer_projection (now : Now) (customer : Customer)
    (months_ahead : Nat) (scenario : String) : Option CustomerProjection :=
  let split := customer.payment_plans.foldl (projection_split_step now) ([], [])
  let valid_plans := split.1
  let behind_plans := split.2
  let total_months_behind := (behind_plans.map (·.2)).sum
  let all_plans := valid_plans ++ behind_plans.map (·.1)
  if all_plans = [] then none
  else if 0 < total_months_behind then
    if scenario = "current" then
      some (project_behind_customer_current now customer all_plans behind_plans months_ahead)
    else if scenario = "restart" then
      some (project_customer_restart now customer all_plans months_ahead)
    else none
  else some (project_current_customer now customer valid_plans months_ahead)

/-- Sort key order of `calculate_customer_projections`: customers needing
renegotiation first, then by descending total monthly payment. -/
def projection_le (a b : CustomerProjection) : Bool :=
  if a.renegotiation_needed ≠ b.renegotiation_needed then a.renegotiation_needed
  else b.total_monthly_payment ≤ a.total_monthly_payment

/-- Embeds `EnhancedPaymentCalculator.calculate_customer_projections` over the
retained customer list (the source iterates the customers dict in insertion
order). -/
def calculate_customer_projections (now : Now) (customers : List Customer)
    (months_ahead : Nat) (scenario : String) : List CustomerProjection :=
  stable_sort projection_le
    (customers.filterMap fun customer =>
      calculate_single_customer_projection now customer months_ahead scenario)

/-- Gregorian leap-year test (for `relativedelta` day clamping). -/
def is_leap_year (y : Nat) : Bool := (y % 4 = 0 ∧ y % 100 ≠ 0) ∨ y % 400 = 0

/-- Number of days in a month (for `relativedelta` day clamping). -/
def days_in_month (y m : Nat) : Nat :=
  if m = 2 then (if is_leap_year y then 29 else 28)
  else if m = 4 ∨ m = 6 ∨ m = 9 ∨ m = 11 then 30
  else 31

/-- Embeds `date + relativedelta(months=n)` without a subsequent day replacement:
month stepping with the day clamped into the target month (used by
`generate_portfolio_summary`, which does not re-anchor to day 15). -/
def add_months_clamped (d : Date) (n : Nat) : Date :=
  let t := (d.month - 1) + n
  let year := d.year + t / 12
  let month := t % 12 + 1
  { year := year, month := month, day := min d.day (days_in_month year month) }

/-- One aggregated month (the dict built by `generate_portfolio_summary`). -/
structure MonthlySummary where
  month : Nat
  date : Date
  expected_payment : ℚ
  active_customers : Nat
  completing_customers : Nat
  behind_customers : Nat
  cumulative_total : ℚ
deriving DecidableEq

/-- Aggregate portfolio figures of `generate_portfolio_summary`. -/
structure PortfolioSummaryTotals where
  total_customers : Nat
  current_customers : Nat
  behind_customers : Nat
  customers_needing_renegotiation : Nat
  total_expected_collection : ℚ
  average_monthly : ℚ
  customers_with_payments : Nat
  total_months_behind : ℤ
  potential_recovery_amount : ℚ
deriving DecidableEq

/-- The full output of `generate_portfolio_summary`.  The empty-projections
branch of the source returns a dict with a subset of these keys; it is
modeled as the same structure with zero/empty fields. -/
structure PortfolioSummary where
  monthly_projections : List MonthlySummary
  summary : PortfolioSummaryTotals
  categories_current : Nat
  categories_behind : Nat
  categories_restart : Nat
  categories_renegotiation : Nat
deriving DecidableEq

/-- Embeds `EnhancedPaymentCalculator.generate_portfolio_summary`. -/
def generate_portfolio_summary (now : Now) (projections : List CustomerProjection)
    (months_ahead : Nat) : PortfolioSummary :=
  if projections = [] then
    { monthly_projections := []
      summary :=
        { total_customers := 0, current_customers := 0, behind_customers := 0
          customers_needing_renegotiation := 0, total_expected_collection := 0
          average_monthly := 0, customers_with_payments := 0
          total_months_behind := 0, potential_recovery_amount := 0 }
      categories_current := 0, categories_behind := 0
      categories_restart := 0, categories_renegotiation := 0 }
  else
    let current_customers := projections.filter fun p => p.status = "current"
    let behind_customers := projections.filter fun p => p.status = "behind"
    let restart_customers := projections.filter fun p => p.status = "restart"
    let month_stats := (List.range months_ahead).map fun i =>
      let month := i + 1
      let reachable := projections.filter fun p => month ≤ p.timeline.length
      let month_entries := reachable.filterMap fun p => p.timeline.get? (month - 1)
      let month_total := (month_entries.map (·.monthly_payment)).sum
      let active_customers := (month_entries.filter fun e => 0 < e.monthly_payment).length
      let behind_count := (reachable.filter fun p => p.status = "behind").length
      let completing_customers :=
        (month_entries.map fun e =>
          (e.plan_details.filter (·.is_final_payment)).length).sum
      (month, month_total, active_customers, behind_count, completing_customers)
    let monthly_summaries := (month_stats.enum.map fun entry =>
      let stats := entry.2
      let cumulative := ((month_stats.take (entry.1 + 1)).map fun s => s.2.1).sum
      { month := stats.1
        date := add_months_clamped now.date stats.1
        expected_payment := round2 stats.2.1
        active_customers := stats.2.2.1
        completing_customers := stats.2.2.2.2
        behind_customers := stats.2.2.2.1
        cumulative_total := round2 cumulative } : List MonthlySummary)
    let total_expected := (month_stats.map fun s => s.2.1).sum
    { monthly_projections := monthly_summaries
      summary :=
        { total_customers := projections.length
          current_customers := current_customers.length
          behind_customers := behind_customers.length
          customers_needing_renegotiation :=
            (projections.filter (·.renegotiation_needed)).length
          total_expected_collection := round2 total_expected
          average_monthly :=
            if 0 < months_ahead then round2 (total_expected / months_ahead) else 0
          customers_with_payments :=
            (projections.filter fun p =>
              p.timeline.any fun e => 0 < e.monthly_payment).length
          total_months_behind := (behind_customers.map (·.months_behind)).sum
          potential_recovery_amount := (behind_customers.map (·.total_owed)).sum }
      categories_current := current_customers.length
      categories_behind := behind_customers.length
      categories_restart := restart_customers.length
      categories_renegotiation := (projections.filter (·.renegotiation_needed)).length }

/-- A raw spreadsheet cell as seen by `parse_amount`: missing (`NaN`/`None`),
numeric, or text. -/
inductive Cell
| blank
| num (q : ℚ)
| txt (s : String)
deriving DecidableEq

/-- Character-list prefix test (structurally recursive, so concrete string
computations reduce; the core `String` searching primitives are
well-founded-recursive and do not). -/
def starts_with_chars : List Char → List Char → Bool
  | _, [] => true
  | [], _ :: _ => false
  | c :: cs, p :: ps => c = p ∧ starts_with_chars cs ps

/-- Character-list substring occurrence test. -/
def occurs_chars : List Char → List Char → Bool
  | [], pat => starts_with_chars [] pat
  | c :: cs, pat => starts_with_chars (c :: cs) pat || occurs_chars cs pat

/-- Strip leading and trailing whitespace from a character list. -/
def trim_chars (cs : List Char) : List Char :=
  ((cs.dropWhile Char.isWhitespace).reverse.dropWhile Char.isWhitespace).reverse

/-- Python `str.strip()`. -/
def str_trim (s : String) : String := ⟨trim_chars s.data⟩

/-- Python `str.lower()` (ASCII-level, as the ledger text is ASCII). -/
def to_lower (s : String) : String := ⟨s.data.map Char.toLower⟩

/-- Python `str.startswith(pat)`. -/
def str_starts_with (s pat : String) : Bool := starts_with_chars s.data pat.data

/-- Python `c in s` for a single character. -/
def str_contains (s : String) (c : Char) : Bool := s.data.contains c

/-- Substring containment (Python `pat in s`). -/
def substr_occurs (s pat : String) : Bool := occurs_chars s.data pat.data

/-- The character class of the amount sanity pattern `^[\d.,\s$-]+$`
(nonempty, only digits, separators, `$`, `-` and whitespace). -/
def amount_chars_ok (s : String) : Bool :=
  s ≠ "" ∧ s.data.all fun c =>
    c.isDigit ∨ c = '.' ∨ c = ',' ∨ c = '$' ∨ c = '-' ∨ c.isWhitespace

/-- Digit run to a natural number. -/
def digits_to_nat (ds : List Char) : Nat :=
  ds.foldl (fun n c => n * 10 + (c.toNat - '0'.toNat)) 0

/-- Python `float(...)` on the cleaned ledger text: optional sign, then
decimal digits with an optional fractional part.  (Exponent and special
forms never occur in ledger amounts and are not modeled.) -/
def parse_decimal (s : String) : Option ℚ :=
  let cs := s.data
  let signed : ℚ × List Char :=
    match cs with
    | '-' :: rest => (-1, rest)
    | '+' :: rest => (1, rest)
    | _ => (1, cs)
  let int_digits := signed.2.takeWhile Char.isDigit
  let rest := signed.2.dropWhile Char.isDigit
  match rest with
  | [] => if int_digits = [] then none else some (signed.1 * digits_to_nat int_digits)
  | '.' :: rest2 =>
    let frac_digits := rest2.takeWhile Char.isDigit
    let rest3 := rest2.dropWhile Char.isDigit
    if rest3 = [] ∧ (int_digits ≠ [] ∨ frac_digits ≠ []) then
      some (signed.1 *
        ((digits_to_nat int_digits : ℚ) + (digits_to_nat frac_digits : ℚ) / 10 ^ frac_digits.length))
    else none
  | _ => none

/-- Embeds `EnhancedPaymentPlanParser.parse_amount`: tolerant amount conversion with
an error note (`#REF!` markers and unparseable text yield 0). -/
def parse_amount (value : Cell) : ℚ × Option String :=
  match value with
  | .blank => (0, none)
  | .num q => (q, none)
  | .txt s =>
    if s = "" then (0, none)
    else
      let original_value := s
      let cleaned := str_trim ((original_value.replace "$" "").replace "," "")
      if substr_occurs original_value "#REF!" then (0, some "Excel reference error")
      else
        let error :=
          if amount_chars_ok (original_value.replace "#REF!" "") then none
          else some ("Invalid characters in amount: " ++ original_value)
        if cleaned = "" then (0, error)
        else
          match parse_decimal cleaned with
          | some q => (q, error)
          | none => (0, some ("Cannot parse amount: " ++ original_value))

/-- The ordered typo-correction table of the parser
(`EnhancedPaymentPlanParser.payment_term_corrections`, a dict iterated in
insertion order). -/
def payment_term_corrections : List (String × String) :=
  [("quaterly", "quarterly"), ("qtrly", "quarterly"), ("montly", "monthly"),
   ("monthl;y", "monthly"), ("bimonthly", "bimonthly"), ("bi-monthly", "bimonthly"),
   ("a month", "monthly"), ("month", "monthly"), ("per month", "monthly")]

/-- First decimal number in the terms text, per the pattern
`(\d+(?:\.\d{2})?)`: a maximal digit run, optionally followed by a dot and
exactly two digits. -/
def extract_first_amount : List Char → Option ℚ
  | [] => none
  | c :: cs =>
    if c.isDigit then
      let int_digits := (c :: cs).takeWhile Char.isDigit
      let rest := (c :: cs).dropWhile Char.isDigit
      let int_part : ℚ := digits_to_nat int_digits
      match rest with
      | '.' :: d1 :: d2 :: _ =>
        if d1.isDigit ∧ d2.isDigit then
          some (int_part + (digits_to_nat [d1, d2] : ℚ) / 100)
        else some int_part
      | _ => some int_part
    else extract_first_amount cs

/-- Embeds `EnhancedPaymentPlanParser.normalize_payment_terms`: extract
(amount, frequency, defect notes) from a raw payment-terms string.  Defect
notes are modeled as tags (`typo:` per substitution applied, plus
`unclear_frequency`). -/
def normalize_payment_terms (terms : Option String) : ℚ × Frequency × List String :=
  match terms with
  | none => (0, .undefined, [])
  | some t =>
    if t = "" then (0, .undefined, [])
    else
      let original_terms := str_trim t
      let corrected := payment_term_corrections.foldl
        (fun (acc : String × List String) pair =>
          if substr_occurs acc.1 pair.1 ∧ pair.1 ≠ pair.2 then
            (acc.1.replace pair.1 pair.2, acc.2 ++ ["typo:" ++ pair.1])
          else acc)
        (to_lower original_terms, [])
      let terms_lower := corrected.1
      let amount := (extract_first_amount terms_lower.data).getD 0
      let frequency :=
        if substr_occurs terms_lower "bimonthly" ∨ substr_occurs terms_lower "bi-monthly" then
          Frequency.bimonthly
        else if substr_occurs terms_lower "quarterly" ∨ substr_occurs terms_lower "qtrly" then
          Frequency.quarterly
        else if substr_occurs terms_lower "monthly" ∨ substr_occurs terms_lower "month" ∨
            substr_occurs terms_lower "per month" ∨ substr_occurs terms_lower "a month" then
          Frequency.monthly
        else Frequency.undefined
      let issues :=
        if frequency = Frequency.undefined ∧ 0 < amount then
          corrected.2 ++ ["unclear_frequency"]
        else corrected.2
      (amount, frequency, issues)

/-- Collapse internal whitespace runs to single spaces (`re.sub(r'\s+', ' ', .)`). -/
def collapse_ws (s : String) : String :=
  let folded := s.data.foldl
    (fun (acc : List Char × Bool) c =>
      if c.isWhitespace then (if acc.2 then acc else (acc.1 ++ [' '], true))
      else (acc.1 ++ [c], false))
    ([], false)
  ⟨folded.1⟩

/-- Embeds `EnhancedPaymentPlanParser._normalize_terms_key`: the stable grouping key
for payment-terms phrases. -/
def normalize_terms_key (payment_terms : Option String) : String :=
  match payment_terms with
  | none => "no_terms"
  | some t =>
    if t = "" then "no_terms"
    else
      let terms := to_lower (str_trim t)
      let terms := payment_term_corrections.foldl
        (fun acc pair => acc.replace pair.1 pair.2) terms
      let terms := collapse_ws terms
      let terms := ((terms.replace "per month" "monthly").replace "a month" "monthly").replace
        "each month" "monthly"
      if terms = "" then "no_terms" else terms

/-- One input row, columns already renamed as in `load_csv`
(`Unnamed: 0/1/2` to `_0/_1/_2`; only `_1`/`_2` are read).  Text cells are
`Option String` (`None` for `NaN`), amount cells are raw `Cell`s, and the
date cell carries the `parse_date` result (a day number, or `none` for
missing/unparseable — the future-date defect note does not affect the parsed
graph). -/
structure Row where
  label1 : Option String
  label2 : Option String
  row_type : Option String
  open_balance : Cell
  amount : Cell
  date : Option Int
  num : Option String
  fob : Option String
  class_field : Option String
deriving DecidableEq

/-- A loaded table: its column names (for structural validation) and its
typed rows. -/
structure Df where
  columns : List String
  rows : List Row
deriving DecidableEq

/-- Embeds `EnhancedPaymentPlanParser._is_total_row_text`: trimmed, lower-cased text
starting with `total` (the source checks the total and TOTAL markers and an
exact total comparison, all subsumed after lower-casing). -/
def is_total_row_text (text : String) : Bool :=
  str_starts_with (to_lower (str_trim text)) "total"

/-- Embeds `EnhancedPaymentPlanParser._is_customer_name_row`. -/
def is_customer_name_row (row : Row) : Bool :=
  row.label1.isSome ∧ row.row_type ≠ some "Invoice" ∧
    ¬ is_total_row_text (row.label1.getD "")

/-- Embeds `EnhancedPaymentPlanParser._is_nested_customer_row`. -/
def is_nested_customer_row (row : Row) : Bool :=
  row.label2.isSome ∧ row.row_type ≠ some "Invoice" ∧
    ¬ is_total_row_text (row.label2.getD "")

/-- Embeds `EnhancedPaymentPlanParser._is_total_row`. -/
def is_total_row (row : Row) : Bool :=
  row.label1.isSome ∧ is_total_row_text (row.label1.getD "")

/-- Embeds `row.isna().all()`: every cell of the row is missing. -/
def Row.is_blank (row : Row) : Bool :=
  row.label1.isNone ∧ row.label2.isNone ∧ row.row_type.isNone ∧
    row.open_balance = Cell.blank ∧ row.amount = Cell.blank ∧ row.date.isNone ∧
    row.num.isNone ∧ row.fob.isNone ∧ row.class_field.isNone

/-- Embeds `EnhancedPaymentPlanParser._parse_invoice_row`: build the `Invoice`
(error-note tracking feeds only the quality report and is omitted). -/
def parse_invoice_row (row : Row) : Invoice :=
  { invoice_number := row.num.getD ""
    date := row.date
    payment_terms := row.fob
    original_amount := (parse_amount row.amount).1
    open_balance := (parse_amount row.open_balance).1
    class_field := row.class_field }

/-- Append `x` to the entry of `key` in an insertion-ordered association
list, creating the entry at the end if absent (Python dict-of-lists update). -/
def assoc_append {α : Type} (data : List (String × List α)) (key : String) (x : α) :
    List (String × List α) :=
  match data with
  | [] => [(key, [x])]
  | (k, xs) :: rest =>
    if k = key then (k, xs ++ [x]) :: rest else (k, xs) :: assoc_append rest key x

/-- Attribution state carried across rows by `parse_customers`: the tracked
customer name, the per-customer invoice lists in first-seen order, and the
ignored (zero-balance) invoice counter. -/
structure ParseState where
  current_customer : Option String
  data : List (String × List Invoice)
  ignored : Nat
deriving DecidableEq

/-- Same-row attribution: a non-empty, non-"total" label in the invoice
own first unnamed cell of the row names the owning customer directly. -/
def same_row_customer (row : Row) : Option String :=
  match row.label1 with
  | some s =>
    if str_trim s ≠ "" ∧ ¬ is_total_row_text (str_trim s) then some (str_trim s) else none
  | none => none

/-- The owning customer of an invoice row: same-row attribution first, else
the carried-over customer from the most recent header row. -/
def invoice_customer_for_row (st : ParseState) (row : Row) : Option String :=
  match same_row_customer row with
  | some c => some c
  | none => st.current_customer

/-- One iteration of the `parse_customers` row loop. -/
def parse_row_step (st : ParseState) (row : Row) : ParseState :=
  if row.is_blank then st
  else if row.row_type = some "Invoice" then
    let open_balance := (parse_amount row.open_balance).1
    if 0 < open_balance then
      match invoice_customer_for_row st row with
      | some c => { st with data := assoc_append st.data c (parse_invoice_row row) }
      | none => st
    else { st with ignored := st.ignored + 1 }
  else if is_customer_name_row row then
    let potential_customer := str_trim (row.label1.getD "")
    if potential_customer ≠ "" ∧ ¬ is_total_row_text potential_customer then
      { st with current_customer := some potential_customer }
    else st
  else if is_nested_customer_row row then
    let nested_customer := str_trim (row.label2.getD "")
    if nested_customer ≠ "" ∧ ¬ is_total_row_text nested_customer then
      { st with current_customer := some nested_customer }
    else st
  else if is_total_row row then
    { st with current_customer := none }
  else st

/-- First-seen deduplication (Python builds a `set`; its iteration order is
modeled as first-seen, which no claim depends on). -/
def dedup_first (l : List String) : List String :=
  l.foldl (fun acc x => if acc.contains x then acc else acc ++ [x]) []

/-- Python truthiness filter for an optional string. -/
def truthy_str (o : Option String) : Option String :=
  match o with
  | some s => if s = "" then none else some s
  | none => none

/-- Index the elements of a list from `i` upward (Python `enumerate`). -/
def enum_from {α : Type} (i : Nat) : List α → List (Nat × α)
  | [] => []
  | x :: xs => (i, x) :: enum_from (i + 1) xs

/-- Embeds `max(set(plan_classes), key=plan_classes.count)`: the most frequent class
tag; ties resolved to the first-seen tag with the maximal count. -/
def dominant_class (plan_classes : List String) : Option String :=
  match dedup_first plan_classes with
  | [] => none
  | c :: cs =>
    some (cs.foldl (fun best x => if plan_classes.count best < plan_classes.count x then x else best) c)

/-- Embeds `min(dates)` over parsed invoice dates, `none` when empty. -/
def min_date (dates : List Int) : Option Int :=
  dates.foldl
    (fun acc x => match acc with | none => some x | some m => some (min m x)) none

/-- Embeds `max(dates)` over parsed invoice dates, `none` when empty. -/
def max_date (dates : List Int) : Option Int :=
  dates.foldl
    (fun acc x => match acc with | none => some x | some m => some (max m x)) none

/-- Embeds `EnhancedPaymentPlanParser._create_customer_object`: group the invoices
of a customer into payment plans by normalized terms key (first-seen order, which
fixes the plan numbering) and recompute all aggregates from the children. -/
def create_customer_object (customer_name : String) (invoices : List Invoice) : Customer :=
  let plans_by_terms := invoices.foldl
    (fun acc inv => assoc_append acc (normalize_terms_key inv.payment_terms) inv) []
  let payment_plans := (enum_from 0 plans_by_terms).map fun entry =>
    let terms_key := entry.2.1
    let plan_invoices := entry.2.2
    let dates := plan_invoices.filterMap (·.date)
    let parsed := normalize_payment_terms (some terms_key)
    { customer_name := customer_name
      plan_id := customer_name ++ "_plan_" ++ toString (entry.1 + 1)
      monthly_amount := parsed.1
      frequency := parsed.2.1
      total_original := (plan_invoices.map (·.original_amount)).sum
      total_open := (plan_invoices.map (·.open_balance)).sum
      invoices := plan_invoices
      earliest_date := min_date dates
      latest_date := max_date dates
      class_filter := dominant_class (plan_invoices.filterMap fun inv => truthy_str inv.class_field)
      has_issues := false
      issues := []
      is_nested := false
      parent_customer := none
      payment_terms_raw := if terms_key ≠ "no_terms" then some terms_key else none
      : PaymentPlan }
  { customer_name := customer_name
    payment_plans := payment_plans
    total_open_balance := (payment_plans.map (·.total_open)).sum
    total_original_amount := (payment_plans.map (·.total_original)).sum
    all_classes := dedup_first
      ((payment_plans.map fun p => p.invoices.filterMap fun inv => truthy_str inv.class_field).flatten)
    has_multiple_plans := 1 < payment_plans.length
    earliest_date := min_date (payment_plans.filterMap (·.earliest_date))
    latest_date := max_date (payment_plans.filterMap (·.latest_date)) }

/-- Embeds `EnhancedPaymentPlanParser.parse_customers`: the full attribution pass
over the rows, then one `Customer` per non-empty invoice group (returned in
first-seen order, as the insertion-ordered dict of the source). -/
def parse_customers (rows : List Row) : List Customer :=
  let final := rows.foldl parse_row_step { current_customer := none, data := [], ignored := 0 }
  (final.data.filter fun g => g.2 ≠ []).map fun g => create_customer_object g.1 g.2

/-- Embeds `utils.validate_csv_structure`: structural issues of a loaded table. -/
def validate_csv_structure (df : Df) : List String :=
  let required_columns := ["Type", "Date", "Num", "FOB", "Open Balance", "Amount"]
  let missing_columns := required_columns.filter fun c => ¬ df.columns.contains c
  let issues :=
    if missing_columns ≠ [] then
      ["Missing required columns: " ++ String.intercalate ", " missing_columns]
    else []
  let issues := issues ++ (if df.rows.length = 0 then ["CSV file is empty"] else [])
  let issues := issues ++
    (if df.columns.contains "Type" then
      if (df.rows.filter fun r => r.row_type = some "Invoice").length = 0 then
        ["No invoice rows found (Type = \x27Invoice\x27)"]
      else []
    else [])
  issues

/-- Embeds `PaymentPlanAnalysisSystem._load_and_validate_csv`: raises (models as
`Except.error`) only when the rendered issue list contains the text
`Missing required columns`; all other structure issues are printed and the
run continues.  (The Python test is `"Missing required columns" in
str(issues)`; the marker can only occur inside a single issue string, so the
test is element-wise here.) -/
def load_and_validate_csv (df : Df) : Except String Unit :=
  let issues := validate_csv_structure df
  if issues.any fun s => substr_occurs s "Missing required columns" then
    Except.error "Failed to load CSV: CSV file missing required columns"
  else Except.ok ()

/-- Embeds `EnhancedIssueAnalyzer._analyze_payment_plan`: the plan-level checks, in
source order; each check contributes at most one issue. -/
def plan_level_issues (now : Now) (plan : PaymentPlan) : List ErrorType :=
  (if plan.monthly_amount = 0 ∨ plan.frequency = Frequency.undefined then
    [ErrorType.no_payment_terms] else []) ++
  (if plan.invoices.any (fun inv => inv.date.any fun d => now.days < d) then
    [ErrorType.future_dated] else []) ++
  (if plan.invoices.any (fun inv => str_contains inv.invoice_number '*') then
    [ErrorType.asterisk_invoice] else []) ++
  (if plan.invoices.any (fun inv => inv.invoice_number = "" ∨ str_trim inv.invoice_number = "") then
    [ErrorType.missing_invoice_numbers] else []) ++
  (if plan.invoices.any (fun inv => (truthy_str inv.class_field).isNone) then
    [ErrorType.missing_class] else []) ++
  (if plan.invoices.any (fun inv => inv.open_balance < 0 ∨ inv.original_amount < 0) then
    [ErrorType.invalid_amount] else []) ++
  (if plan.invoices.any (fun inv => inv.original_amount < inv.open_balance ∧ 0 < inv.original_amount) then
    [ErrorType.invalid_amount] else []) ++
  (if plan.is_nested then [ErrorType.nested_customer] else [])

/-- Embeds `EnhancedIssueAnalyzer._analyze_customer_level_issues`: checks evaluated
across all plans of a customer. -/
def customer_level_issues (customer : Customer) : List ErrorType :=
  (if customer.has_multiple_plans ∧
      1 < (dedup_first (customer.payment_plans.filterMap fun p => truthy_str p.payment_terms_raw)).length then
    [ErrorType.multiple_payment_terms] else []) ++
  (if 1 < customer.all_classes.length then [ErrorType.formatting_error] else [])

/-- Embeds `EnhancedIssueAnalyzer.analyze_customer`: analyze each plan (updating its
`has_issues` flag and issue list in place in the source; here producing the
updated customer) and collect plan-level plus customer-level issues. -/
def analyze_customer (now : Now) (customer : Customer) : Customer × List ErrorType :=
  let analyzed_plans := customer.payment_plans.map fun plan =>
    let plan_issues := plan_level_issues now plan
    ({ plan with has_issues := plan_issues ≠ [], issues := plan_issues }, plan_issues)
  let updated := { customer with payment_plans := analyzed_plans.map (·.1) }
  (updated, (analyzed_plans.map (·.2)).flatten ++ customer_level_issues customer)

/-- Embeds `EnhancedIssueAnalyzer.analyze_all_customers`: categorize every customer
as clean (no issues at all) or problematic (at least one issue at any
level), preserving iteration order; returns `(clean, problematic)` with the
plan-flag updates of the analyzer applied. -/
def analyze_all_customers (now : Now) (customers : List Customer) :
    List Customer × List Customer :=
  customers.foldl
    (fun acc customer =>
      let analyzed := analyze_customer now customer
      if analyzed.2 ≠ [] then (acc.1, acc.2 ++ [analyzed.1])
      else (acc.1 ++ [analyzed.1], acc.2))
    ([], [])

/-- Embeds `PaymentPlanAnalysisSystem._calculate_payment_metrics` fed by
`_analyze_data_quality`: metrics are computed for the clean customers only,
then optionally post-filtered by class. -/
def pipeline_metrics (now : Now) (customers : List Customer)
    (class_filter : Option String) : List PaymentMetrics :=
  let categorized := analyze_all_customers now customers
  let all_metrics := (categorized.1.map (calculate_customer_metrics now)).flatten
  match class_filter with
  | some cf => all_metrics.filter fun m => m.class_field = some cf
  | none => all_metrics

/-- The retained analysis state (`PaymentPlanAnalysisSystem.results`), `none`
before any completed run; only the fields the read operations consult are
modeled. -/
structure AnalysisResults where
  all_customers : List Customer
  all_metrics : List PaymentMetrics
deriving DecidableEq

/-- One entry of the collection-priority list (the dict built by
`get_collection_priorities`). -/
structure PriorityEntry where
  customer_name : String
  plan_id : String
  months_behind : ℤ
  total_owed : ℚ
  payment_difference : ℚ
  class_field : Option String
  monthly_payment : ℚ
  status : CustomerStatus
deriving DecidableEq

/-- Embeds `PaymentPlanAnalysisSystem.get_collection_priorities`: the empty list
when no analysis has run; otherwise the class-filtered metrics prioritized
for collections, capped at the top 20. -/
def get_collection_priorities (results : Option AnalysisResults)
    (class_filter : Option String) : List PriorityEntry :=
  match results with
  | none => []
  | some r =>
    let metrics :=
      match class_filter with
      | some cf => r.all_metrics.filter fun m => m.class_field = some cf
      | none => r.all_metrics
    ((prioritize_collections metrics).take 20).map fun m =>
      { customer_name := m.customer_name
        plan_id := m.plan_id
        months_behind := m.months_behind
        total_owed := m.total_owed
        payment_difference := m.payment_difference
        class_field := m.class_field
        monthly_payment := m.monthly_payment
        status := m.status }

/-- The dict returned by `get_payment_projections`. -/
structure ProjectionsResult where
  customer_projections : List CustomerProjection
  portfolio_summary : PortfolioSummary
  months_ahead : Nat
  scenario : String
  class_filter : Option String
  total_customers : Nat
deriving DecidableEq

/-- Embeds `PaymentPlanAnalysisSystem.get_payment_projections`: `None` when no
analysis has run; otherwise projections for the (optionally class-filtered)
retained customers plus their portfolio summary. -/
def get_payment_projections (results : Option AnalysisResults) (now : Now)
    (months_ahead : Nat) (scenario : String) (class_filter : Option String) :
    Option ProjectionsResult :=
  match results with
  | none => none
  | some r =>
    let customers_data :=
      match class_filter with
      | some cf => r.all_customers.filter fun c => c.all_classes.contains cf
      | none => r.all_customers
    let projections := calculate_customer_projections now customers_data months_ahead scenario
    some
      { customer_projections := projections
        portfolio_summary := generate_portfolio_summary now projections months_ahead
        months_ahead := months_ahead
        scenario := scenario
        class_filter := class_filter
        total_customers := projections.length }


/-- An issue-free quarterly plan used to witness the months-behind formula. -/
def c4_plan : PaymentPlan :=
  { customer_name := "Acme Co", plan_id := "Acme Co_plan_1", monthly_amount := 100,
    frequency := Frequency.quarterly, total_original := 750, total_open := 500,
    invoices := [], earliest_date := some 0, latest_date := some 0,
    class_filter := some "BR", has_issues := false, issues := [], is_nested := false,
    parent_customer := none, payment_terms_raw := some "100 quarterly" }

/-- An issue-free monthly plan with no earliest invoice date: the metrics
calculator produces no record for it. -/
def c8_no_date_plan : PaymentPlan :=
  { customer_name := "Acme Co", plan_id := "Acme Co_plan_1", monthly_amount := 100,
    frequency := Frequency.monthly, total_original := 600, total_open := 500,
    invoices := [], earliest_date := none, latest_date := none,
    class_filter := some "BR", has_issues := false, issues := [], is_nested := false,
    parent_customer := none, payment_terms_raw := some "100 monthly" }

/-- The same plan with an earliest invoice date 100 days before "now". -/
def c8_dated_plan : PaymentPlan :=
  { c8_no_date_plan with earliest_date := some 0 }

/-- The analysis instant used by the C8 fixtures: day number 100. -/
def c8_now : Now := { days := 100, date := ⟨2024, 4, 10⟩ }

/-- The exact running balance of the roadmap loop after `i` payments: each
payment takes `min monthly_amount balance`. -/
def roadmap_balances (m bal : ℚ) : Nat → ℚ
  | 0 => bal
  | i + 1 => roadmap_balances m bal i - min m (roadmap_balances m bal i)

/-- The malformed-input stress plan of the roadmap-termination property:
one cent per month against a million-dollar balance. -/
def c9_plan : PaymentPlan :=
  { customer_name := "Acme Co", plan_id := "Acme Co_plan_1", monthly_amount := 1 / 100,
    frequency := Frequency.monthly, total_original := 1000000, total_open := 1000000,
    invoices := [], earliest_date := some 0, latest_date := some 0,
    class_filter := some "BR", has_issues := false, issues := [], is_nested := false,
    parent_customer := none, payment_terms_raw := some "0.01 monthly" }

/-- The analysis instant used by the C9 fixture. -/
def c9_now : Now := { days := 0, date := ⟨2024, 1, 1⟩ }

/-- A structurally complete table with zero data rows. -/
def c6_df : Df :=
  { columns := ["Type", "Date", "Num", "FOB", "Open Balance", "Amount"], rows := [] }

/-- First invoice of the C2 customer (individually clean). -/
def c2_invoice1 : Invoice :=
  { invoice_number := "1001", date := some 0, payment_terms := some "100 monthly",
    original_amount := 600, open_balance := 300, class_field := some "BR" }

/-- Second invoice of the C2 customer (individually clean). -/
def c2_invoice2 : Invoice :=
  { invoice_number := "1002", date := some 0, payment_terms := some "200 monthly",
    original_amount := 800, open_balance := 400, class_field := some "BR" }

/-- First plan of the C2 customer: no plan-level issues. -/
def c2_plan1 : PaymentPlan :=
  { customer_name := "Acme Co", plan_id := "Acme Co_plan_1", monthly_amount := 100,
    frequency := Frequency.monthly, total_original := 600, total_open := 300,
    invoices := [c2_invoice1], earliest_date := some 0, latest_date := some 0,
    class_filter := some "BR", has_issues := false, issues := [], is_nested := false,
    parent_customer := none, payment_terms_raw := some "100 monthly" }

/-- Second plan of the C2 customer: no plan-level issues, but its raw terms
differ from those of the first plan. -/
def c2_plan2 : PaymentPlan :=
  { customer_name := "Acme Co", plan_id := "Acme Co_plan_2", monthly_amount := 200,
    frequency := Frequency.monthly, total_original := 800, total_open := 400,
    invoices := [c2_invoice2], earliest_date := some 0, latest_date := some 0,
    class_filter := some "BR", has_issues := false, issues := [], is_nested := false,
    parent_customer := none, payment_terms_raw := some "200 monthly" }

/-- A customer whose only issue is the customer-level
`multiple_payment_terms` (two clean plans with different raw terms). -/
def c2_customer : Customer :=
  { customer_name := "Acme Co", payment_plans := [c2_plan1, c2_plan2],
    total_open_balance := 700, total_original_amount := 1400, all_classes := ["BR"],
    has_multiple_plans := true, earliest_date := some 0, latest_date := some 0 }

/-- The analysis instant used by the C2 fixtures. -/
def c2_now : Now := { days := 100, date := ⟨2024, 4, 10⟩ }

/-- The behind plan of the C1 scenario: 100/month against 500 open of 600
original, first invoice 100 days ago — 3 months behind at `c1_now`. -/
def c1_planA : PaymentPlan :=
  { customer_name := "Acme Co", plan_id := "Acme Co_plan_1", monthly_amount := 100,
    frequency := Frequency.monthly, total_original := 600, total_open := 500,
    invoices := [], earliest_date := some 0, latest_date := some 0,
    class_filter := some "BR", has_issues := false, issues := [], is_nested := false,
    parent_customer := none, payment_terms_raw := some "100 monthly" }

/-- The current plan of the C1 scenario: paid 500 of 600, not behind. -/
def c1_planB : PaymentPlan :=
  { customer_name := "Acme Co", plan_id := "Acme Co_plan_2", monthly_amount := 100,
    frequency := Frequency.monthly, total_original := 600, total_open := 100,
    invoices := [], earliest_date := some 0, latest_date := some 0,
    class_filter := some "BR", has_issues := false, issues := [], is_nested := false,
    parent_customer := none, payment_terms_raw := some "100 each month" }

/-- A customer with one behind plan and one current plan. -/
def c1_customer : Customer :=
  { customer_name := "Acme Co", payment_plans := [c1_planA, c1_planB],
    total_open_balance := 600, total_original_amount := 1200, all_classes := ["BR"],
    has_multiple_plans := true, earliest_date := some 0, latest_date := some 0 }

/-- The analysis instant of the C1 scenario: 100 days after the earliest
invoices. -/
def c1_now : Now := { days := 100, date := ⟨2024, 4, 10⟩ }

/-- Month-1 payment entry of the current plan (final payment of 100). -/
def c1_infoB : PlanPaymentInfo :=
  { plan_id := "Acme Co_plan_2", payment_amount := 100, payment_number := 1,
    total_payments := 1, frequency := Frequency.monthly, class_field := some "BR",
    is_final_payment := true, remaining_balance := 0 }

/-- Month-1 payment entry of the behind plan (payment 1 of 5). -/
def c1_infoA : PlanPaymentInfo :=
  { plan_id := "Acme Co_plan_1", payment_amount := 100, payment_number := 1,
    total_payments := 5, frequency := Frequency.monthly, class_field := some "BR",
    is_final_payment := false, remaining_balance := 400 }

/-- A customer-header row ("Acme Co"). -/
def c3_header_row : Row :=
  { label1 := some "Acme Co", label2 := none, row_type := none,
    open_balance := Cell.blank, amount := Cell.blank, date := none, num := none,
    fob := none, class_field := none }

/-- An invoice row with open balance 450 of 600, attributed by carry-over. -/
def c3_invoice_row : Row :=
  { label1 := none, label2 := none, row_type := some "Invoice",
    open_balance := Cell.num 450, amount := Cell.num 600, date := some 0,
    num := some "1001", fob := none, class_field := some "BR" }

/-- The two-row table of the C3 witness. -/
def c3_rows : List Row := [c3_header_row, c3_invoice_row]

/-- The invoice the parse attaches. -/
def c3_invoice : Invoice :=
  { invoice_number := "1001", date := some 0, payment_terms := none,
    original_amount := 600, open_balance := 450, class_field := some "BR" }

/-- The plan the parse builds (no terms on the invoice). -/
def c3_plan : PaymentPlan :=
  { customer_name := "Acme Co", plan_id := "Acme Co_plan_1", monthly_amount := 0,
    frequency := Frequency.undefined, total_original := 600, total_open := 450,
    invoices := [c3_invoice], earliest_date := some 0, latest_date := some 0,
    class_filter := some "BR", has_issues := false, issues := [], is_nested := false,
    parent_customer := none, payment_terms_raw := none }

/-- The customer the parse builds. -/
def c3_customer : Customer :=
  { customer_name := "Acme Co", payment_plans := [c3_plan], total_open_balance := 450,
    total_original_amount := 600, all_classes := ["BR"], has_multiple_plans := false,
    earliest_date := some 0, latest_date := some 0 }

/-- C4: for a plan processed by the metrics calculator, months-behind is 0 on a
non-negative payment difference, and otherwise the balance-capped deficit in
payments, scaled to calendar months by the frequency multiplier and rounded
up; it is never negative. -/
theorem C4_months_behind_formula (plan : PaymentPlan) (payment_difference : ℚ)
    (hm : 0 < plan.monthly_amount) (ho : 0 ≤ plan.total_open) :
    0 ≤ calculate_months_behind plan payment_difference ∧
    (0 ≤ payment_difference → calculate_months_behind plan payment_difference = 0) ∧
    (payment_difference < 0 →
      calculate_months_behind plan payment_difference =
        ⌈min |payment_difference| plan.total_open / plan.monthly_amount *
          (normalize_frequency_to_months plan.frequency : ℚ)⌉) := by
  by_cases hpd : 0 ≤ payment_difference
  · refine ⟨?_, fun _ => ?_, fun h => absurd h (not_lt.mpr hpd)⟩ <;>
      simp [calculate_months_behind, hpd]
  · have hdef : (0 : ℚ) ≤ min |payment_difference| plan.total_open :=
      le_min (abs_nonneg _) ho
    have hkey : calculate_months_behind plan payment_difference =
        ⌈min |payment_difference| plan.total_open / plan.monthly_amount *
          (normalize_frequency_to_months plan.frequency : ℚ)⌉ := by
      unfold calculate_months_behind cap_deficit_at_balance whole_months
      rw [if_neg hpd, if_neg (not_le.mpr hm)]
      cases plan.frequency <;> norm_num [normalize_frequency_to_months]
    refine ⟨?_, fun h => absurd h hpd, fun _ => hkey⟩
    rw [hkey]
    have : (0 : ℚ) ≤ min |payment_difference| plan.total_open / plan.monthly_amount *
        (normalize_frequency_to_months plan.frequency : ℚ) := by
      apply mul_nonneg (div_nonneg hdef hm.le)
      positivity
    exact Int.ceil_nonneg this

/-- Witness for C4 at a concrete quarterly plan 250 behind on a 500 balance. -/
theorem C4_months_behind_formula_witness :
    0 < c4_plan.monthly_amount ∧ 0 ≤ c4_plan.total_open ∧
    calculate_months_behind c4_plan (-250) = 8 :=
  ⟨by norm_num [c4_plan], by norm_num [c4_plan], by
    have h := (C4_months_behind_formula c4_plan (-250) (by norm_num [c4_plan])
      (by norm_num [c4_plan])).2.2 (by norm_num)
    rw [h]
    norm_num [c4_plan, normalize_frequency_to_months]
    rw [Int.ceil_eq_iff] <;> norm_num⟩

/-- C5: expected payments normalize by frequency — per elapsed month for
monthly plans, per whole quarter (floor) for quarterly, per whole two-month
period for bimonthly; a quarterly plan at 300 with 7 elapsed months expects
600, not 2100. -/
theorem C5_expected_payments_frequency (monthly_amount : ℚ) (months_elapsed : ℤ) :
    calculate_expected_payments_by_frequency monthly_amount months_elapsed Frequency.monthly
        = months_elapsed * monthly_amount ∧
    calculate_expected_payments_by_frequency monthly_amount months_elapsed Frequency.quarterly
        = ⌊(months_elapsed : ℚ) / 3⌋ * monthly_amount ∧
    calculate_expected_payments_by_frequency monthly_amount months_elapsed Frequency.bimonthly
        = ⌊(months_elapsed : ℚ) / 2⌋ * monthly_amount ∧
    calculate_expected_payments_by_frequency 300 7 Frequency.quarterly = 600 := by
  have hq : months_elapsed.fdiv 3 = ⌊(months_elapsed : ℚ) / 3⌋ := by
    rw [show ((3 : ℚ)) = ((3 : ℕ) : ℚ) by norm_num, Rat.floor_intCast_div_natCast,
      Int.fdiv_eq_ediv _ (by norm_num)]
    rfl
  have hb : months_elapsed.fdiv 2 = ⌊(months_elapsed : ℚ) / 2⌋ := by
    rw [show ((2 : ℚ)) = ((2 : ℕ) : ℚ) by norm_num, Rat.floor_intCast_div_natCast,
      Int.fdiv_eq_ediv _ (by norm_num)]
    rfl
  refine ⟨rfl, ?_, ?_, ?_⟩
  · show ((months_elapsed.fdiv 3 : ℤ) : ℚ) * monthly_amount = _
    rw [hq]
  · show ((months_elapsed.fdiv 2 : ℤ) : ℚ) * monthly_amount = _
    rw [hb]
  · norm_num [calculate_expected_payments_by_frequency, Int.fdiv]

/-- C7 counterexample: a quarterly plan with balance 200 and payment 100 needs
2 payments; the code schedules completion in month 4, not the 6 months that
`payments × frequency multiplier` would give. -/
theorem C7_completion_quarterly_counterexample :
    calculate_completion_timeline 200 100 Frequency.quarterly = 4 ∧
    ⌈(200 : ℚ) / 100⌉ * (normalize_frequency_to_months Frequency.quarterly : ℤ) = 6 ∧
    calculate_completion_timeline 200 100 Frequency.quarterly ≠
      ⌈(200 : ℚ) / 100⌉ * (normalize_frequency_to_months Frequency.quarterly : ℤ) := by
  have h2 : ⌈(200 : ℚ) / 100⌉ = 2 := by
    rw [show (200 : ℚ) / 100 = 2 by norm_num]
    exact Int.ceil_intCast 2
  have h4 : calculate_completion_timeline 200 100 Frequency.quarterly = 4 := by
    rw [calculate_completion_timeline]
    norm_num [normalize_frequency_to_months, h2]
  refine ⟨h4, ?_, ?_⟩
  · rw [h2]; norm_num [normalize_frequency_to_months]
  · rw [h4, h2]; norm_num [normalize_frequency_to_months]

/-- C7 amended: months-remaining is `(ceil(total/monthly) − 1) ×
frequency_months + 1` (first payment due in month 1, later payments spaced by
the frequency interval — identical to `payments × multiplier` for monthly
plans), and the completion date steps that many whole months from now,
anchored to day 15 with exact year rollover; the monthly 500-on-1500 example
completes 2024-04-15. -/
theorem C7_completion_timeline_amended (total_owed monthly_payment : ℚ) (f : Frequency)
    (now : Date) (n : Nat) (hm : 0 < monthly_payment) (ht : 0 < total_owed) :
    calculate_completion_timeline total_owed monthly_payment f
        = (⌈total_owed / monthly_payment⌉ - 1) * (normalize_frequency_to_months f : ℤ) + 1 ∧
    (get_payment_date_for_month now n 15).day = 15 ∧
    (get_payment_date_for_month now n 15).year * 12 +
        ((get_payment_date_for_month now n 15).month - 1)
        = now.year * 12 + (now.month - 1) + n ∧
    calculate_completion_timeline 1500 500 Frequency.monthly = 3 ∧
    get_payment_date_for_month ⟨2024, 1, 1⟩ 3 15 = ⟨2024, 4, 15⟩ := by
  refine ⟨?_, rfl, ?_, ?_, rfl⟩
  · rw [calculate_completion_timeline, if_neg]
    push_neg
    exact ⟨hm, ht⟩
  · show (now.year + ((now.month - 1) + n) / 12) * 12 + (((now.month - 1) + n) % 12 + 1 - 1)
        = now.year * 12 + (now.month - 1) + n
    omega
  · rw [calculate_completion_timeline]
    norm_num [normalize_frequency_to_months]

/-- Witness for the amended C7 at the monthly 500-on-1500 plan from 2024-01-01. -/
theorem C7_completion_timeline_amended_witness :
    (0 : ℚ) < 500 ∧ (0 : ℚ) < 1500 ∧
    calculate_completion_timeline 1500 500 Frequency.monthly
      = (⌈(1500 : ℚ) / 500⌉ - 1) * (normalize_frequency_to_months Frequency.monthly : ℤ) + 1 ∧
    get_payment_date_for_month ⟨2024, 1, 1⟩ 3 15 = ⟨2024, 4, 15⟩ := by
  have h := C7_completion_timeline_amended 1500 500 Frequency.monthly ⟨2024, 1, 1⟩ 3
    (by norm_num) (by norm_num)
  exact ⟨by norm_num, by norm_num, h.1, h.2.2.2.2⟩

/-- C8 counterexample: an issue-free plan with positive monthly amount but no
earliest invoice date yields no `PaymentMetrics` record at all, where the
claim asserts a record with `months_elapsed = 0`. -/
theorem C8_no_record_without_date_counterexample :
    c8_no_date_plan.has_issues = false ∧ 0 < c8_no_date_plan.monthly_amount ∧
    c8_no_date_plan.earliest_date = none ∧
    calculate_plan_metrics c8_now c8_no_date_plan = none := by
  refine ⟨rfl, by norm_num [c8_no_date_plan], rfl, ?_⟩
  simp [calculate_plan_metrics, c8_no_date_plan]

/-- C8 amended: for an issue-free plan with positive monthly amount, a record
is produced exactly when the plan has an earliest invoice date, and then
`months_elapsed = ceil(days_elapsed / 30.44)`; with no earliest date no
record is produced. -/
theorem C8_months_elapsed_amended (now : Now) (plan : PaymentPlan)
    (h1 : plan.has_issues = false) (h2 : 0 < plan.monthly_amount) :
    (plan.earliest_date = none → calculate_plan_metrics now plan = none) ∧
    ∀ d, plan.earliest_date = some d →
      (calculate_plan_metrics now plan).map (fun m => m.months_elapsed)
        = some ⌈((now.days - d : ℤ) : ℚ) / (30.44 : ℚ)⌉ := by
  constructor
  · intro h
    simp [calculate_plan_metrics, h1, h2.ne', h]
  · intro d h
    simp [calculate_plan_metrics, h1, h2.ne', h, whole_months]

/-- Witness for the amended C8: 100 elapsed days give `ceil(100/30.44) = 4`
elapsed months. -/
theorem C8_months_elapsed_amended_witness :
    c8_dated_plan.has_issues = false ∧ 0 < c8_dated_plan.monthly_amount ∧
    c8_dated_plan.earliest_date = some 0 ∧
    (calculate_plan_metrics c8_now c8_dated_plan).map (fun m => m.months_elapsed) = some 4 := by
  refine ⟨rfl, by norm_num [c8_dated_plan, c8_no_date_plan], rfl, ?_⟩
  have h := (C8_months_elapsed_amended c8_now c8_dated_plan rfl
    (by norm_num [c8_dated_plan, c8_no_date_plan])).2 0 rfl
  rw [h, c8_now]
  norm_num
  rw [Int.ceil_eq_iff] <;> norm_num

theorem roadmap_balances_shift (m bal : ℚ) :
    ∀ i, roadmap_balances m (bal - min m bal) i = roadmap_balances m bal (i + 1) := by
  intro i
  induction i with
  | zero => rfl
  | succ j ih => simp only [roadmap_balances, ih]

theorem roadmap_balances_step_nonneg (m bal : ℚ) (i : Nat) :
    0 ≤ roadmap_balances m bal i - min m (roadmap_balances m bal i) := by
  have := min_le_right m (roadmap_balances m bal i)
  linarith

theorem roadmap_loop_length_le (now : Now) (m : ℚ) (f : Nat) :
    ∀ fuel month bal pn, (roadmap_loop now m f fuel month bal pn).length ≤ 61 - pn := by
  intro fuel
  induction fuel with
  | zero => intro month bal pn; simp [roadmap_loop]
  | succ k ih =>
    intro month bal pn
    rw [roadmap_loop]
    split
    · simp
    · rename_i h
      push_neg at h
      simp only [List.length_cons]
      have := ih (month + f) (bal - min m bal) (pn + 1)
      omega

theorem roadmap_loop_getElem (now : Now) (m : ℚ) (f : Nat) :
    ∀ fuel month bal pn i, i < (roadmap_loop now m f fuel month bal pn).length →
      (roadmap_loop now m f fuel month bal pn)[i]? = some
        { payment_number := pn + i
          date := get_payment_date_for_month now.date (month + i * f) 15
          expected_payment := round2 (min m (roadmap_balances m bal i))
          remaining_balance :=
            round2 (roadmap_balances m bal i - min m (roadmap_balances m bal i))
          is_overdue :=
            dateLtb (get_payment_date_for_month now.date (month + i * f) 15) now.date } ∧
      0 < roadmap_balances m bal i := by
  intro fuel
  induction fuel with
  | zero => intro month bal pn i hi; simp [roadmap_loop] at hi
  | succ k ih =>
    intro month bal pn i hi
    by_cases hstop : bal ≤ 0 ∨ 60 < pn
    · rw [roadmap_loop, if_pos hstop] at hi
      simp at hi
    · rw [roadmap_loop, if_neg hstop] at hi ⊢
      push_neg at hstop
      match i with
      | 0 =>
        constructor
        · simp [roadmap_balances]
        · simpa [roadmap_balances] using hstop.1
      | i + 1 =>
        simp only [List.length_cons, Nat.add_lt_add_iff_right] at hi
        obtain ⟨h1, h2⟩ := ih (month + f) (bal - min m bal) (pn + 1) i hi
        rw [roadmap_balances_shift] at h2
        constructor
        · rw [List.getElem?_cons_succ, h1, roadmap_balances_shift,
            show pn + 1 + i = pn + (i + 1) by omega,
            show month + f + i * f = month + (i + 1) * f by ring]
        · exact h2

/-- C9: the roadmap loop always terminates with at most 60 entries; entry `i`
pays exactly `min(monthly_amount, running balance)` and records the
balance after that payment, the running balance is positive at every entry
and never goes negative afterwards. -/
theorem C9_roadmap_cap_and_payments (now : Now) (plan : PaymentPlan) (months_remaining : ℤ) :
    (generate_payment_roadmap now plan months_remaining).length ≤ 60 ∧
    ∀ i, i < (generate_payment_roadmap now plan months_remaining).length →
      (generate_payment_roadmap now plan months_remaining)[i]? = some
        { payment_number := 1 + i
          date := get_payment_date_for_month now.date
            (1 + i * normalize_frequency_to_months plan.frequency) 15
          expected_payment := round2 (min plan.monthly_amount
            (roadmap_balances plan.monthly_amount plan.total_open i))
          remaining_balance := round2 (roadmap_balances plan.monthly_amount plan.total_open i -
            min plan.monthly_amount (roadmap_balances plan.monthly_amount plan.total_open i))
          is_overdue := dateLtb (get_payment_date_for_month now.date
            (1 + i * normalize_frequency_to_months plan.frequency) 15) now.date } ∧
      0 < roadmap_balances plan.monthly_amount plan.total_open i ∧
      0 ≤ roadmap_balances plan.monthly_amount plan.total_open i -
        min plan.monthly_amount (roadmap_balances plan.monthly_amount plan.total_open i) := by
  rw [generate_payment_roadmap]
  split
  · simp
  · dsimp only
    constructor
    · have := roadmap_loop_length_le now plan.monthly_amount
        (normalize_frequency_to_months plan.frequency)
        ((months_remaining - 1).toNat / normalize_frequency_to_months plan.frequency + 1)
        1 plan.total_open 1
      omega
    · intro i hi
      obtain ⟨h1, h2⟩ := roadmap_loop_getElem now plan.monthly_amount
        (normalize_frequency_to_months plan.frequency)
        ((months_remaining - 1).toNat / normalize_frequency_to_months plan.frequency + 1)
        1 plan.total_open 1 i hi
      exact ⟨h1, h2, roadmap_balances_step_nonneg _ _ _⟩

theorem roadmap_loop_length_eq (now : Now) (m : ℚ) (f : Nat) (hm : 0 < m) :
    ∀ (fuel k month pn : Nat) (bal : ℚ), pn + k = 61 → k ≤ fuel → (k : ℚ) * m < bal →
      (roadmap_loop now m f fuel month bal pn).length = k := by
  intro fuel
  induction fuel with
  | zero =>
    intro k month pn bal hpn hk hbal
    have hz : k = 0 := by omega
    subst hz
    simp [roadmap_loop]
  | succ fuel ih =>
    intro k month pn bal hpn hk hbal
    match k with
    | 0 =>
      rw [roadmap_loop, if_pos (Or.inr (by omega))]
      rfl
    | k + 1 =>
      have hmle : m ≤ bal := by
        have h1 : (1 : ℚ) ≤ ((k : ℚ) + 1) := by
          have := Nat.cast_nonneg (α := ℚ) k
          linarith
        have h2 : m ≤ ((k : ℚ) + 1) * m := le_mul_of_one_le_left hm.le h1
        have : ((k + 1 : ℕ) : ℚ) = (k : ℚ) + 1 := by push_cast; ring
        rw [this] at hbal
        linarith
      have hbalpos : 0 < bal := by
        have : (0 : ℚ) ≤ ((k + 1 : ℕ) : ℚ) * m := by positivity
        linarith
      rw [roadmap_loop, if_neg (by push_neg; exact ⟨hbalpos, by omega⟩)]
      have hmin : min m bal = m := min_eq_left hmle
      simp only [List.length_cons]
      rw [ih k (month + f) (pn + 1) (bal - min m bal) (by omega) (by omega) ?_]
      rw [hmin]
      have : ((k + 1 : ℕ) : ℚ) = (k : ℚ) + 1 := by push_cast; ring
      rw [this] at hbal
      linarith

/-- Witness for C9: the roadmap of the stress plan stops at exactly the 60-entry
cap (its nominal schedule would need 10^8 payments). -/
theorem C9_roadmap_cap_and_payments_witness :
    (generate_payment_roadmap c9_now c9_plan
        (calculate_completion_timeline c9_plan.total_open c9_plan.monthly_amount
          c9_plan.frequency)).length ≤ 60 ∧
    (generate_payment_roadmap c9_now c9_plan
        (calculate_completion_timeline c9_plan.total_open c9_plan.monthly_amount
          c9_plan.frequency)).length = 60 := by
  refine ⟨(C9_roadmap_cap_and_payments c9_now c9_plan _).1, ?_⟩
  have hmr : calculate_completion_timeline c9_plan.total_open c9_plan.monthly_amount
      c9_plan.frequency = 100000000 := by
    rw [calculate_completion_timeline]
    rw [if_neg (by norm_num [c9_plan])]
    dsimp only
    norm_num [c9_plan, normalize_frequency_to_months]
  rw [hmr, generate_payment_roadmap, if_neg (by norm_num [c9_plan])]
  dsimp only
  have hiter : ((100000000 - 1 : ℤ)).toNat / normalize_frequency_to_months c9_plan.frequency + 1
      = 100000000 := by
    norm_num [c9_plan, normalize_frequency_to_months]
    decide
  rw [hiter]
  have h := roadmap_loop_length_eq c9_now c9_plan.monthly_amount
    (normalize_frequency_to_months c9_plan.frequency) (by norm_num [c9_plan])
    100000000 60 1 1 c9_plan.total_open (by norm_num) (by norm_num) (by norm_num [c9_plan])
  exact h

/-- C10: before any completed analysis run (no retained results), the
collection-priorities read returns an empty list and the projections read
returns nothing; neither raises. -/
theorem C10_reads_before_any_run (now : Now) (months_ahead : Nat) (scenario : String)
    (class_filter : Option String) :
    get_collection_priorities none class_filter = [] ∧
    get_payment_projections none now months_ahead scenario class_filter = none :=
  ⟨rfl, rfl⟩

/-- C6 counterexample: an empty table with all required columns is flagged
("CSV file is empty") but the loader does not abort — it raises only on
missing required columns — and the run proceeds to an empty parse. -/
theorem C6_empty_table_no_abort_counterexample :
    validate_csv_structure c6_df ≠ [] ∧
    "CSV file is empty" ∈ validate_csv_structure c6_df ∧
    load_and_validate_csv c6_df = Except.ok () ∧
    parse_customers c6_df.rows = [] := by
  refine ⟨by decide, by decide, ?_, rfl⟩
  rw [load_and_validate_csv, if_neg (by decide)]

/-- C6 amended: a zero-row table that has all required columns records the
"CSV file is empty" structure issue but is not fatal: validation succeeds,
and the run continues with an empty customer graph (so empty metrics and
reports) rather than a single aborting failure. -/
theorem C6_empty_table_amended (df : Df) (hrows : df.rows = [])
    (hcols : ∀ c ∈ ["Type", "Date", "Num", "FOB", "Open Balance", "Amount"],
      c ∈ df.columns) :
    load_and_validate_csv df = Except.ok () ∧
    "CSV file is empty" ∈ validate_csv_structure df ∧
    parse_customers df.rows = [] := by
  have hmiss : (["Type", "Date", "Num", "FOB", "Open Balance", "Amount"].filter
      fun c => ¬ df.columns.contains c) = [] := by
    rw [List.filter_eq_nil_iff]
    intro a ha
    simp [List.contains, List.elem_eq_mem, hcols a ha]
  have hty : df.columns.contains "Type" = true := by
    simp [List.contains, List.elem_eq_mem, hcols "Type" (by decide)]
  have hval : validate_csv_structure df = ["CSV file is empty",
      "No invoice rows found (Type = \x27Invoice\x27)"] := by
    rw [validate_csv_structure]
    rw [hmiss, hrows]
    simp [hcols "Type" (by decide)]
  refine ⟨?_, by rw [hval]; decide, by rw [hrows]; rfl⟩
  rw [load_and_validate_csv, hval, if_neg (by decide)]

/-- Witness for the amended C6 at the concrete empty table. -/
theorem C6_empty_table_amended_witness :
    c6_df.rows = [] ∧ "Type" ∈ c6_df.columns ∧
    load_and_validate_csv c6_df = Except.ok () ∧
    "CSV file is empty" ∈ validate_csv_structure c6_df :=
  have h := C6_empty_table_amended c6_df rfl (by decide)
  ⟨rfl, by decide, h.1, h.2.1⟩

/-- The collected issues of `analyze_customer` are the concatenated plan-level
issues followed by the customer-level issues. -/
theorem analyze_customer_issues (now : Now) (customer : Customer) :
    (analyze_customer now customer).2
      = (customer.payment_plans.map (plan_level_issues now)).flatten ++
        customer_level_issues customer := by
  rw [analyze_customer]
  dsimp only
  rw [List.map_map]
  rfl

/-- C2 counterexample: both plans of the fixture customer are free of
plan-level issues and have positive monthly amounts, the only customer
issue is customer-level — yet the pipeline produces no `PaymentMetrics`
record at all, because customer-level issues put the customer in the
problematic partition and metrics run on clean customers only. -/
theorem C2_customer_level_gating_counterexample :
    plan_level_issues c2_now c2_plan1 = [] ∧
    plan_level_issues c2_now c2_plan2 = [] ∧
    0 < c2_plan1.monthly_amount ∧ 0 < c2_plan2.monthly_amount ∧
    customer_level_issues c2_customer = [ErrorType.multiple_payment_terms] ∧
    pipeline_metrics c2_now [c2_customer] none = [] := by
  refine ⟨by decide, by decide, by norm_num [c2_plan1], by norm_num [c2_plan2],
    by decide, by decide⟩

/-- C2 amended: a customer with only customer-level issues (every plan free
of plan-level issues) is categorized problematic, so the pipeline produces
no `PaymentMetrics` for any of its plans: metrics eligibility is gated first
by the clean partition of customers, and only within clean customers per plan. -/
theorem C2_metrics_gated_by_customer_amended (now : Now) (customer : Customer)
    (hplans : ∀ plan ∈ customer.payment_plans, plan_level_issues now plan = [])
    (hcust : customer_level_issues customer ≠ []) :
    (analyze_all_customers now [customer]).1 = [] ∧
    pipeline_metrics now [customer] none = [] := by
  have hflat : (customer.payment_plans.map (plan_level_issues now)).flatten = [] := by
    rw [List.flatten_eq_nil_iff]
    intro l hl
    obtain ⟨p, hp, rfl⟩ := List.mem_map.mp hl
    exact hplans p hp
  have hsnd : (analyze_customer now customer).2 = customer_level_issues customer := by
    rw [analyze_customer_issues, hflat, List.nil_append]
  have hstep : analyze_all_customers now [customer]
      = ([], [(analyze_customer now customer).1]) := by
    rw [analyze_all_customers]
    simp only [List.foldl_cons, List.foldl_nil]
    rw [if_pos (by rw [hsnd]; exact hcust)]
    simp
  refine ⟨by rw [hstep], ?_⟩
  rw [pipeline_metrics, hstep]
  rfl

/-- Witness for the amended C2 at the fixture customer. -/
theorem C2_metrics_gated_by_customer_amended_witness :
    plan_level_issues c2_now c2_plan1 = [] ∧ plan_level_issues c2_now c2_plan2 = [] ∧
    customer_level_issues c2_customer ≠ [] ∧
    (analyze_all_customers c2_now [c2_customer]).1 = [] ∧
    pipeline_metrics c2_now [c2_customer] none = [] :=
  have h := C2_metrics_gated_by_customer_amended c2_now c2_customer
    (by decide) (by decide)
  ⟨by decide, by decide, by decide, h.1, h.2⟩

theorem c1_elapsed_ceil : (⌈(2500 : ℚ) / 761⌉ : ℤ) = 4 := by
  rw [Int.ceil_eq_iff] <;> norm_num

theorem c1_planA_months_behind : calculate_months_behind_for_plan c1_now c1_planA = 3 := by
  rw [calculate_months_behind_for_plan]
  simp only [c1_planA, c1_now]
  norm_num [whole_months, calculate_expected_payments_by_frequency, cap_deficit_at_balance]
  rw [c1_elapsed_ceil]
  norm_num

theorem c1_planB_months_behind : calculate_months_behind_for_plan c1_now c1_planB = 0 := by
  rw [calculate_months_behind_for_plan]
  simp only [c1_planB, c1_now]
  norm_num [whole_months, calculate_expected_payments_by_frequency, cap_deficit_at_balance]
  rw [c1_elapsed_ceil]
  norm_num

theorem c1_split_stepA :
    projection_split_step c1_now ([], []) c1_planA = ([], [(c1_planA, 3)]) := by
  rw [projection_split_step, if_pos (by constructor <;> norm_num [c1_planA])]
  dsimp only
  rw [c1_planA_months_behind]
  norm_num

theorem c1_split_stepB :
    projection_split_step c1_now ([], [(c1_planA, 3)]) c1_planB
      = ([c1_planB], [(c1_planA, 3)]) := by
  rw [projection_split_step, if_pos (by constructor <;> norm_num [c1_planB])]
  dsimp only
  rw [c1_planB_months_behind]
  norm_num

theorem c1_split :
    c1_customer.payment_plans.foldl (projection_split_step c1_now) ([], [])
      = ([c1_planB], [(c1_planA, 3)]) := by
  show List.foldl (projection_split_step c1_now) ([], []) [c1_planA, c1_planB]
      = ([c1_planB], [(c1_planA, 3)])
  rw [List.foldl_cons, c1_split_stepA, List.foldl_cons, c1_split_stepB, List.foldl_nil]

theorem c1_dispatch_current :
    calculate_single_customer_projection c1_now c1_customer 12 "current"
      = some (project_behind_customer_current c1_now c1_customer
          [c1_planB, c1_planA] [(c1_planA, 3)] 12) := by
  rw [calculate_single_customer_projection, c1_split]
  norm_num
  simp

theorem c1_dispatch_restart :
    calculate_single_customer_projection c1_now c1_customer 12 "restart"
      = some (project_customer_restart c1_now c1_customer [c1_planB, c1_planA] 12) := by
  rw [calculate_single_customer_projection, c1_split]
  norm_num
  exact ⟨by simp, fun h => absurd h (by decide)⟩

theorem c1_payB (scenario : String) :
    calculate_plan_payment_for_month c1_planB 1 scenario = some c1_infoB := by
  rw [calculate_plan_payment_for_month]
  norm_num [c1_planB, c1_infoB, normalize_frequency_to_months, round2, roundHalfEvenZ]

theorem c1_payA (scenario : String) :
    calculate_plan_payment_for_month c1_planA 1 scenario = some c1_infoA := by
  rw [calculate_plan_payment_for_month]
  norm_num [c1_planA, c1_infoA, normalize_frequency_to_months, round2, roundHalfEvenZ]

theorem c1_month_details (scenario : String) :
    month_plan_details [c1_planB, c1_planA] 1 scenario = [c1_infoB, c1_infoA] := by
  rw [month_plan_details]
  rw [List.filterMap_cons, c1_payB, List.filterMap_cons, c1_payA, List.filterMap_nil]
  norm_num [c1_infoA, c1_infoB]

theorem c1_filter_keeps_behind :
    ([c1_planB, c1_planA].filter fun plan => ¬ [(c1_planA, (3 : ℤ))].contains (plan, (0 : ℤ)))
      = [c1_planB, c1_planA] := by decide

theorem c1_current_timeline0 :
    ((project_behind_customer_current c1_now c1_customer [c1_planB, c1_planA]
        [(c1_planA, 3)] 12).timeline[0]?).map
      (fun e => (e.monthly_payment, e.active_plans, e.plan_details.map (·.plan_id)))
      = some (200, 2, ["Acme Co_plan_2", "Acme Co_plan_1"]) := by
  rw [project_behind_customer_current]
  dsimp only
  rw [List.getElem?_map, List.getElem?_range]
  all_goals norm_num [c1_filter_keeps_behind, c1_month_details, c1_infoA, c1_infoB,
    round2, roundHalfEvenZ]

theorem c1_restart_timeline0 :
    ((project_customer_restart c1_now c1_customer [c1_planB, c1_planA] 12).timeline[0]?).map
      (fun e => (e.monthly_payment, e.active_plans, e.plan_details.map (·.plan_id)))
      = some (200, 2, ["Acme Co_plan_2", "Acme Co_plan_1"]) := by
  rw [project_customer_restart]
  dsimp only
  rw [List.getElem?_map, List.getElem?_range]
  all_goals norm_num [c1_month_details, c1_infoA, c1_infoB, round2, roundHalfEvenZ]

/-- C1 (code bug evidence): at `c1_now` the fixture customer has one plan 3
months behind and one current plan, yet month 1 of the "current"-scenario
timeline collects 200 from **both** plans — the behind plan
(`Acme Co_plan_1`) pays as scheduled because the filter
`(plan, 0) not in behind_plans` test compares against a pair that can never
occur (every recorded pair carries months-behind > 0).  The "restart"
scenario pays the same 200 from month 1, as specified. -/
theorem C1_behind_plan_pays_under_current_scenario :
    calculate_months_behind_for_plan c1_now c1_planA = 3 ∧
    calculate_months_behind_for_plan c1_now c1_planB = 0 ∧
    ((calculate_single_customer_projection c1_now c1_customer 12 "current").map fun p =>
      (p.timeline[0]?).map fun e =>
        (e.monthly_payment, e.active_plans, e.plan_details.map (·.plan_id)))
      = some (some (200, 2, ["Acme Co_plan_2", "Acme Co_plan_1"])) ∧
    ((calculate_single_customer_projection c1_now c1_customer 12 "restart").map fun p =>
      (p.timeline[0]?).map fun e =>
        (e.monthly_payment, e.active_plans, e.plan_details.map (·.plan_id)))
      = some (some (200, 2, ["Acme Co_plan_2", "Acme Co_plan_1"])) := by
  refine ⟨c1_planA_months_behind, c1_planB_months_behind, ?_, ?_⟩
  · rw [c1_dispatch_current, Option.map_some', c1_current_timeline0]
  · rw [c1_dispatch_restart, Option.map_some', c1_restart_timeline0]

theorem assoc_append_forall {α : Type} (P : α → Prop) :
    ∀ (data : List (String × List α)) (key : String) (x : α),
      (∀ p ∈ data, ∀ y ∈ p.2, P y) → P x →
      ∀ p ∈ assoc_append data key x, ∀ y ∈ p.2, P y := by
  intro data
  induction data with
  | nil =>
    intro key x _ hx p hp y hy
    simp [assoc_append] at hp
    subst hp
    simp at hy
    subst hy
    exact hx
  | cons head tail ih =>
    intro key x hdata hx p hp y hy
    obtain ⟨k, xs⟩ := head
    rw [assoc_append] at hp
    by_cases hk : k = key
    · rw [if_pos hk] at hp
      rcases List.mem_cons.mp hp with h | h
      · subst h
        simp only at hy
        rcases List.mem_append.mp hy with h2 | h2
        · exact hdata (k, xs) (List.mem_cons_self _ _) y h2
        · simp at h2
          subst h2
          exact hx
      · exact hdata p (List.mem_cons_of_mem _ h) y hy
    · rw [if_neg hk] at hp
      rcases List.mem_cons.mp hp with h | h
      · subst h
        exact hdata (k, xs) (List.mem_cons_self _ _) y hy
      · exact ih key x (fun q hq => hdata q (List.mem_cons_of_mem _ hq)) hx p h y hy

theorem parse_row_step_open_balances (st : ParseState) (row : Row)
    (hst : ∀ p ∈ st.data, ∀ inv ∈ p.2, 0 < inv.open_balance) :
    ∀ p ∈ (parse_row_step st row).data, ∀ inv ∈ p.2, 0 < inv.open_balance := by
  rw [parse_row_step]
  by_cases hb : row.is_blank
  · rw [if_pos hb]; exact hst
  · rw [if_neg hb]
    by_cases hty : row.row_type = some "Invoice"
    · rw [if_pos hty]
      dsimp only
      by_cases hob : 0 < (parse_amount row.open_balance).1
      · rw [if_pos hob]
        cases hic : invoice_customer_for_row st row with
        | none => exact hst
        | some c =>
          exact assoc_append_forall _ st.data c (parse_invoice_row row) hst hob
      · rw [if_neg hob]; exact hst
    · rw [if_neg hty]
      dsimp only
      split_ifs <;> exact hst

theorem parse_fold_open_balances (rows : List Row) :
    ∀ st : ParseState, (∀ p ∈ st.data, ∀ inv ∈ p.2, 0 < inv.open_balance) →
      ∀ p ∈ (rows.foldl parse_row_step st).data, ∀ inv ∈ p.2, 0 < inv.open_balance := by
  induction rows with
  | nil => intro st hst; simpa using hst
  | cons row rest ih =>
    intro st hst
    rw [List.foldl_cons]
    exact ih _ (parse_row_step_open_balances st row hst)

theorem group_fold_open_balances (P : Invoice → Prop) (invoices : List Invoice)
    (h : ∀ inv ∈ invoices, P inv) :
    ∀ acc : List (String × List Invoice), (∀ p ∈ acc, ∀ y ∈ p.2, P y) →
      ∀ p ∈ invoices.foldl
        (fun acc inv => assoc_append acc (normalize_terms_key inv.payment_terms) inv) acc,
        ∀ y ∈ p.2, P y := by
  induction invoices with
  | nil => intro acc hacc; simpa using hacc
  | cons inv rest ih =>
    intro acc hacc
    rw [List.foldl_cons]
    exact ih (fun x hx => h x (List.mem_cons_of_mem _ hx)) _
      (assoc_append_forall P acc _ inv hacc (h inv (List.mem_cons_self _ _)))

theorem mem_of_mem_enum_from {α : Type} :
    ∀ (l : List α) (i : Nat) (e : Nat × α), e ∈ enum_from i l → e.2 ∈ l := by
  intro l
  induction l with
  | nil => intro i e he; simp [enum_from] at he
  | cons x xs ih =>
    intro i e he
    rw [enum_from] at he
    rcases List.mem_cons.mp he with h | h
    · subst h; exact List.mem_cons_self _ _
    · exact List.mem_cons_of_mem _ (ih (i + 1) e h)

theorem create_customer_object_totals (name : String) (invoices : List Invoice)
    (hinv : ∀ inv ∈ invoices, 0 < inv.open_balance) :
    (create_customer_object name invoices).total_open_balance
      = ((create_customer_object name invoices).payment_plans.map (·.total_open)).sum ∧
    ∀ plan ∈ (create_customer_object name invoices).payment_plans,
      plan.total_open = (plan.invoices.map (·.open_balance)).sum ∧
      ∀ inv ∈ plan.invoices, 0 < inv.open_balance := by
  constructor
  · rfl
  · intro plan hplan
    rw [create_customer_object] at hplan
    obtain ⟨entry, hentry, rfl⟩ := List.mem_map.mp hplan
    refine ⟨rfl, ?_⟩
    intro inv hmem
    have hgroup := mem_of_mem_enum_from _ 0 entry hentry
    exact group_fold_open_balances (fun i => 0 < i.open_balance) invoices hinv []
      (by simp) entry.2 hgroup inv hmem

/-- C3: after every parse, the `total_open_balance` of each customer is the
sum of `total_open` over its plans, the `total_open` of each plan is the sum
of `open_balance` over its invoices, and every attached invoice has a
strictly positive open balance (zero-or-negative-balance invoices are never
attached). -/
theorem C3_parse_invariants (rows : List Row) :
    ∀ customer ∈ parse_customers rows,
      customer.total_open_balance
        = (customer.payment_plans.map (·.total_open)).sum ∧
      ∀ plan ∈ customer.payment_plans,
        plan.total_open = (plan.invoices.map (·.open_balance)).sum ∧
        ∀ inv ∈ plan.invoices, 0 < inv.open_balance := by
  intro customer hc
  rw [parse_customers] at hc
  obtain ⟨⟨name, invs⟩, hmem, rfl⟩ := List.mem_map.mp hc
  have hfil := List.mem_filter.mp hmem
  have hall : ∀ inv ∈ invs, 0 < inv.open_balance := by
    intro inv hi
    exact parse_fold_open_balances rows
      { current_customer := none, data := [], ignored := 0 } (by simp)
      (name, invs) hfil.1 inv hi
  exact create_customer_object_totals name invs hall

theorem c3_create_eval :
    create_customer_object "Acme Co" [c3_invoice] = c3_customer := by
  rw [create_customer_object]
  have hterms : normalize_payment_terms (some "no_terms")
      = (0, Frequency.undefined, []) := by decide
  have hkey : normalize_terms_key c3_invoice.payment_terms = "no_terms" := by decide
  dsimp only
  rw [List.foldl_cons, List.foldl_nil, hkey]
  norm_num [assoc_append, enum_from, hterms, c3_invoice, c3_plan, c3_customer]
  decide

theorem c3_parse_eval : parse_customers c3_rows = [c3_customer] := by
  have h1 : parse_row_step { current_customer := none, data := [], ignored := 0 }
      c3_header_row = { current_customer := some "Acme Co", data := [], ignored := 0 } := by
    decide
  have h2 : parse_row_step { current_customer := some "Acme Co", data := [], ignored := 0 }
      c3_invoice_row
      = { current_customer := some "Acme Co",
          data := [("Acme Co", [c3_invoice])],
          ignored := 0 } := by
    decide
  rw [parse_customers, show c3_rows = [c3_header_row, c3_invoice_row] from rfl,
    List.foldl_cons, h1, List.foldl_cons, h2, List.foldl_nil]
  norm_num [c3_create_eval]

/-- Witness for C3 at a concrete two-row parse. -/
theorem C3_parse_invariants_witness :
    c3_customer ∈ parse_customers c3_rows ∧
    (c3_customer.total_open_balance
        = (c3_customer.payment_plans.map (·.total_open)).sum ∧
      ∀ plan ∈ c3_customer.payment_plans,
        plan.total_open = (plan.invoices.map (·.open_balance)).sum ∧
        ∀ inv ∈ plan.invoices, 0 < inv.open_balance) :=
  have hmem : c3_customer ∈ parse_customers c3_rows := by
    rw [c3_parse_eval]
    exact List.mem_cons_self _ _
  ⟨hmem, C3_parse_invariants c3_rows c3_customer hmem⟩
